import Mathlib

/-!
Verification development for the sakila-api recommendation engine.

The definitions below are a shallow embedding of the TypeScript/SQL sources:
  - `recommendations-v2.service.ts` (weighted multi-attribute strategy V2,
    including the raw SQL query it issues),
  - `customers.service.ts` (rule-based strategy V1 and its aggregation queries),
  - `focus-validation-v2.pipe.ts` and the V1 `focus-validation.pipe.ts`,
  - `ml.service.ts` (external similarity call with its error translation), and
  - `external-recommendations.service.ts` (secondary external call path).

Database tables are embedded as Lean lists of records; SQL joins are embedded
as `flatMap`/`filter` over those lists, `GROUP BY` + `COUNT(*)` as
`groupCounts`, `ORDER BY ... DESC` as a deterministic insertion sort by the
ordering key (the SQL order is unspecified on ties, so any fixed order on ties
is a sound refinement for the properties proved here), and `LIMIT n` as
`List.take n`.  Thrown HTTP exceptions are embedded as `Except` errors.
-/

/-! ## Sorting infrastructure (embeds `ORDER BY key DESC`) -/

def insertDesc {α : Type} (key : α → Nat) (a : α) : List α → List α
  | [] => [a]
  | b :: l => if key b ≤ key a then a :: b :: l else b :: insertDesc key a l

def sortDesc {α : Type} (key : α → Nat) : List α → List α
  | [] => []
  | a :: l => insertDesc key a (sortDesc key l)

theorem mem_insertDesc {α : Type} (key : α → Nat) (a x : α) (l : List α) :
    x ∈ insertDesc key a l ↔ x = a ∨ x ∈ l := by
  induction l with
  | nil => simp [insertDesc]
  | cons b l ih =>
    by_cases h : key b ≤ key a
    · simp [insertDesc, h]
    · simp [insertDesc, h, ih]
      tauto

theorem length_insertDesc {α : Type} (key : α → Nat) (a : α) (l : List α) :
    (insertDesc key a l).length = l.length + 1 := by
  induction l with
  | nil => rfl
  | cons b l ih =>
    by_cases h : key b ≤ key a
    · simp [insertDesc, h]
    · simp [insertDesc, h, ih]

theorem mem_sortDesc {α : Type} (key : α → Nat) (x : α) (l : List α) :
    x ∈ sortDesc key l ↔ x ∈ l := by
  induction l with
  | nil => simp [sortDesc]
  | cons a l ih => simp [sortDesc, mem_insertDesc, ih]

theorem length_sortDesc {α : Type} (key : α → Nat) (l : List α) :
    (sortDesc key l).length = l.length := by
  induction l with
  | nil => rfl
  | cons a l ih => simp [sortDesc, length_insertDesc, ih]

theorem pairwise_insertDesc {α : Type} (key : α → Nat) (a : α) (l : List α)
    (h : l.Pairwise (fun x y => key y ≤ key x)) :
    (insertDesc key a l).Pairwise (fun x y => key y ≤ key x) := by
  induction l with
  | nil => simp [insertDesc]
  | cons b l ih =>
    by_cases hba : key b ≤ key a
    · rw [insertDesc, if_pos hba]
      refine List.pairwise_cons.mpr ⟨?_, h⟩
      intro y hy
      rcases List.mem_cons.mp hy with rfl | hy
      · exact hba
      · exact le_trans (List.rel_of_pairwise_cons h hy) hba
    · rw [insertDesc, if_neg hba]
      refine List.pairwise_cons.mpr ⟨?_, ih h.of_cons⟩
      intro y hy
      rcases (mem_insertDesc key a y l).mp hy with rfl | hy
      · exact Nat.le_of_lt (Nat.lt_of_not_le hba)
      · exact List.rel_of_pairwise_cons h hy

theorem pairwise_sortDesc {α : Type} (key : α → Nat) (l : List α) :
    (sortDesc key l).Pairwise (fun x y => key y ≤ key x) := by
  induction l with
  | nil => simp [sortDesc]
  | cons a l ih => exact pairwise_insertDesc key a _ ih

/-! ## Grouping infrastructure (embeds `GROUP BY v` + `COUNT(*)`) -/

def countOcc {α : Type} [DecidableEq α] (a : α) (l : List α) : Nat :=
  (l.filter (fun b => decide (a = b))).length

def groupCounts {α : Type} [DecidableEq α] (l : List α) : List (α × Nat) :=
  l.dedup.map (fun a => (a, countOcc a l))

def topK {α : Type} [DecidableEq α] (k : Nat) (l : List α) : List (α × Nat) :=
  (sortDesc (fun p => p.2) (groupCounts l)).take k

theorem countOcc_eq_zero {α : Type} [DecidableEq α] {a : α} {l : List α}
    (h : a ∉ l) : countOcc a l = 0 := by
  unfold countOcc
  rw [List.length_eq_zero, List.filter_eq_nil_iff]
  intro b hb
  simp only [decide_eq_true_eq]
  rintro rfl
  exact h hb

theorem filter_eq_of_nodup {α : Type} [DecidableEq α] (a : α) (l : List α)
    (h : l.Nodup) :
    l.filter (fun b => decide (a = b)) = if a ∈ l then [a] else [] := by
  induction l with
  | nil => simp
  | cons b l ih =>
    rcases List.nodup_cons.mp h with ⟨hb, hl⟩
    by_cases hab : a = b
    · subst hab
      simp only [List.filter_cons, decide_eq_true_eq, if_pos rfl, List.mem_cons,
        true_or, if_true]
      rw [List.filter_eq_nil_iff.mpr]
      intro c hc
      simp only [decide_eq_true_eq]
      rintro rfl
      exact hb hc
    · simp only [List.filter_cons, decide_eq_true_eq, if_neg hab, ih hl,
        List.mem_cons]
      rcases em (a ∈ l) with hmem | hmem
      · simp [hmem, hab]
      · simp [hmem, hab]

theorem groupCounts_filter_sum {α : Type} [DecidableEq α] (a : α) (l : List α) :
    (((groupCounts l).filter (fun p => decide (a = p.1))).map
      (fun p => p.2)).sum = countOcc a l := by
  unfold groupCounts
  rw [List.filter_map]
  have hcomp :
      ((fun p : α × Nat => decide (a = p.1)) ∘ fun b => (b, countOcc b l))
        = fun b => decide (a = b) := rfl
  rw [hcomp, filter_eq_of_nodup a l.dedup (List.nodup_dedup l)]
  rcases em (a ∈ l) with hmem | hmem
  · rw [if_pos ((List.mem_dedup).mpr hmem)]
    simp
  · rw [if_neg (fun hd => hmem ((List.mem_dedup).mp hd))]
    simp [countOcc_eq_zero hmem]

theorem sum_map_constNat {α : Type} (l : List α) (c : Nat) :
    (l.map (fun _ => c)).sum = l.length * c := by
  induction l with
  | nil => simp
  | cons a l ih => simp [ih, Nat.succ_mul, Nat.add_comm]

theorem sum_flatMapNat {α : Type} (l : List α) (g : α → List Nat) :
    (l.flatMap g).sum = (l.map (fun a => (g a).sum)).sum := by
  induction l with
  | nil => rfl
  | cons a l ih => simp [List.flatMap_cons, List.sum_append, ih]

/-! ## Data model (Sakila tables used by the recommendation strategies)

Columns not consulted by any recommendation strategy (timestamps, addresses,
payment amounts, `rental_duration`, activity flags, ...) are omitted; they are
only read by the out-of-scope dashboard feature. -/

inductive MpaaRating where
  | g
  | pg
  | pg13
  | r
  | nc17
deriving DecidableEq

/-- Integer rank of a rating per the `CASE f.rating ... END` expression in the
V2 SQL (`G`=1, `PG`=2, `PG-13`=3, `R`=4, `NC-17`=5). -/
def ratingRank : MpaaRating → Nat
  | .g => 1
  | .pg => 2
  | .pg13 => 3
  | .r => 4
  | .nc17 => 5

/-- The same `CASE` applied to a nullable rating column: `ELSE 0` catches NULL. -/
def ratingCaseRank : Option MpaaRating → Nat
  | some x => ratingRank x
  | none => 0

structure Customer where
  customer_id : Nat
deriving DecidableEq

structure Film where
  film_id : Nat
  title : String
  description : String
  release_year : Nat
  rating : Option MpaaRating
  language_id : Nat
deriving DecidableEq

structure Category where
  category_id : Nat
  name : String
deriving DecidableEq

structure Actor where
  actor_id : Nat
  first_name : String
  last_name : String
deriving DecidableEq

/-- Embeds the `language` table (named `Lang` here because `Language` is taken
by Mathlib). -/
structure Lang where
  language_id : Nat
  name : String
deriving DecidableEq

structure FilmCategory where
  film_id : Nat
  category_id : Nat
deriving DecidableEq

structure FilmActor where
  film_id : Nat
  actor_id : Nat
deriving DecidableEq

structure Inventory where
  inventory_id : Nat
  film_id : Nat
deriving DecidableEq

structure Rental where
  rental_id : Nat
  inventory_id : Nat
  customer_id : Nat
deriving DecidableEq

structure Db where
  customers : List Customer
  films : List Film
  categories : List Category
  actors : List Actor
  languages : List Lang
  film_categories : List FilmCategory
  film_actors : List FilmActor
  inventories : List Inventory
  rentals : List Rental
deriving DecidableEq

/-- Errors thrown by the NestJS layers, as an explicit error type:
`NotFoundException` / `BadRequestException` / `HttpException(msg, status)` /
a plain JavaScript `Error`. -/
inductive HttpError where
  | notFound (msg : String)
  | badRequest (msg : String)
  | http (msg : String) (status : Nat)
  | jsError (msg : String)
deriving DecidableEq

/-- Embeds `prisma.customer.findUnique({ where: { customer_id } })`. -/
def findCustomer (db : Db) (cid : Nat) : Option Customer :=
  db.customers.find? (fun c => c.customer_id == cid)

/-- Embeds the SQL join `rental r JOIN inventory i ON r.inventory_id =
i.inventory_id` for one customer, projected to `i.film_id`.  This is the
`NOT IN (SELECT i.film_id FROM rental r JOIN inventory i ...)` subquery used
by the V1 queries, and it is the set of items the user has interacted with. -/
def interactedFilmIds (db : Db) (cid : Nat) : List Nat :=
  (db.rentals.filter (fun r => r.customer_id == cid)).flatMap (fun r =>
    (db.inventories.filter (fun i => i.inventory_id == r.inventory_id)).map
      (fun i => i.film_id))

/-- Embeds the Prisma query of the V2 service:
`rental.findMany({ where: { customer_id }, select: { inventory: { select:
{ film_id } } } })` followed by `map((r) => r.inventory.film_id)`.  The Prisma
relation lookup resolves each rental's inventory row by its primary key. -/
def rentedFilmIdsPrisma (db : Db) (cid : Nat) : List Nat :=
  (db.rentals.filter (fun r => r.customer_id == cid)).filterMap (fun r =>
    (db.inventories.find? (fun i => i.inventory_id == r.inventory_id)).map
      (fun i => i.film_id))

/-! ## Strategy V2 (`recommendations-v2.service.ts`) -/

structure Weights where
  category : Nat
  actor : Nat
  language : Nat
  rating : Nat
deriving DecidableEq

/-- Base weights of the V2 service (`let weights = { category: 4, actor: 3,
language: 2, rating: 1 }`). -/
def baseWeights : Weights := ⟨4, 3, 2, 1⟩

/-- Embeds the `if (focus) { switch (focus) { ... } }` weight adjustment:
each recognized focus token adds 2 to exactly one dimension; the `default`
branch leaves the weights unchanged. -/
def adjustWeights (focus : Option String) (w : Weights) : Weights :=
  match focus with
  | none => w
  | some f =>
    if f = "genres" then { w with category := w.category + 2 }
    else if f = "actors" then { w with actor := w.actor + 2 }
    else if f = "language" then { w with language := w.language + 2 }
    else if f = "rating" then { w with rating := w.rating + 2 }
    else w

/-- Embeds `excludedFilmIds.length > 0 ? excludedFilmIds : [0]`, the list
interpolated into `WHERE f.film_id NOT IN (...)`. -/
def notInListV2 (db : Db) (cid : Nat) : List Nat :=
  if (rentedFilmIdsPrisma db cid).isEmpty then [0]
  else rentedFilmIdsPrisma db cid

/-- Embeds the join `rental r JOIN inventory i JOIN film f` restricted to one
customer (the base of every `CustomerPreferences` branch of the V2 SQL). -/
def rentalFilms (db : Db) (cid : Nat) : List Film :=
  (db.rentals.filter (fun r => r.customer_id == cid)).flatMap (fun r =>
    (db.inventories.filter (fun i => i.inventory_id == r.inventory_id)).flatMap
      (fun i => db.films.filter (fun f => f.film_id == i.film_id)))

/-- Rows of the category branch join (one row per rented film per category of
that film), projected to `fc.category_id`. -/
def userCatIds (db : Db) (cid : Nat) : List Nat :=
  (rentalFilms db cid).flatMap (fun f =>
    (db.film_categories.filter (fun fc => fc.film_id == f.film_id)).map
      (fun fc => fc.category_id))

/-- Rows of the actor branch join, projected to `fa.actor_id`. -/
def userActIds (db : Db) (cid : Nat) : List Nat :=
  (rentalFilms db cid).flatMap (fun f =>
    (db.film_actors.filter (fun fa => fa.film_id == f.film_id)).map
      (fun fa => fa.actor_id))

/-- Rows of the language branch join, projected to `f.language_id`. -/
def userLangIds (db : Db) (cid : Nat) : List Nat :=
  (rentalFilms db cid).map (fun f => f.language_id)

/-- Rows of the rating branch join (`WHERE ... AND f.rating IS NOT NULL`),
projected to the integer rank of `f.rating`. -/
def userRatingRanks (db : Db) (cid : Nat) : List Nat :=
  ((rentalFilms db cid).filter (fun f => f.rating.isSome)).map
    (fun f => ratingCaseRank f.rating)

inductive PrefType where
  | category
  | actor
  | language
  | rating
deriving DecidableEq

/-- One row of the `CustomerPreferences` CTE: `(id, type, count)`. -/
structure PrefRow where
  id : Nat
  ptype : PrefType
  count : Nat
deriving DecidableEq

def catPrefRows (db : Db) (cid : Nat) : List PrefRow :=
  (groupCounts (userCatIds db cid)).map (fun p => PrefRow.mk p.1 .category p.2)

def actPrefRows (db : Db) (cid : Nat) : List PrefRow :=
  (groupCounts (userActIds db cid)).map (fun p => PrefRow.mk p.1 .actor p.2)

def langPrefRows (db : Db) (cid : Nat) : List PrefRow :=
  (groupCounts (userLangIds db cid)).map (fun p => PrefRow.mk p.1 .language p.2)

def ratPrefRows (db : Db) (cid : Nat) : List PrefRow :=
  (groupCounts (userRatingRanks db cid)).map
    (fun p => PrefRow.mk p.1 .rating p.2)

/-- The full `CustomerPreferences` CTE (the four `UNION ALL` branches). -/
def cpRows (db : Db) (cid : Nat) : List PrefRow :=
  catPrefRows db cid ++ actPrefRows db cid ++ langPrefRows db cid ++
    ratPrefRows db cid

/-- Rows contributed to a SQL `LEFT JOIN`: when the right side is empty a
single all-NULL row survives, otherwise one row per match. -/
def leftOpt {α : Type} (l : List α) : List (Option α) :=
  if l.isEmpty then [none] else l.map some

def filmCats (db : Db) (f : Film) : List FilmCategory :=
  db.film_categories.filter (fun fc => fc.film_id == f.film_id)

def filmActs (db : Db) (f : Film) : List FilmActor :=
  db.film_actors.filter (fun fa => fa.film_id == f.film_id)

/-- Join condition of `LEFT JOIN CustomerPreferences cp ON (...) OR (...) OR
(...) OR (...)` for one base row `(f, fc, fa)` of the `FilmScores` CTE. -/
def cpMatch (f : Film) (fc? : Option FilmCategory) (fa? : Option FilmActor)
    (row : PrefRow) : Bool :=
  match row.ptype with
  | .category => fc?.any (fun fc => decide (fc.category_id = row.id))
  | .actor => fa?.any (fun fa => decide (fa.actor_id = row.id))
  | .language => decide (f.language_id = row.id)
  | .rating => decide (ratingCaseRank f.rating = row.id)

/-- Sum of `cp.count` over rows of a given `cp.type` — the
`SUM(cp.count * w) FILTER (WHERE cp.type = t AND <join condition>)` aggregate,
with the constant weight factored out (the join condition of the filter is
already enforced on the rows passed in). -/
def filterTypeSum (rows : List PrefRow) (t : PrefType) : Nat :=
  ((rows.filter (fun p => decide (p.ptype = t))).map (fun p => p.count)).sum

/-- Contribution of one base row `(f, fc?, fa?)` of the `FilmScores` group for
film `f`: the matched `cp` rows of type `t`. -/
def cellSum (db : Db) (cid : Nat) (f : Film) (fc? : Option FilmCategory)
    (fa? : Option FilmActor) (t : PrefType) : Nat :=
  filterTypeSum ((cpRows db cid).filter (cpMatch f fc? fa?)) t

/-- Aggregate over the whole `FilmScores` group of film `f`: the group's rows
are the cross product of `LEFT JOIN film_category` and `LEFT JOIN film_actor`
rows, each left-joined against `CustomerPreferences`. -/
def dimSum (db : Db) (cid : Nat) (f : Film) (t : PrefType) : Nat :=
  ((leftOpt (filmCats db f)).flatMap (fun fc? =>
    (leftOpt (filmActs db f)).map (fun fa? =>
      cellSum db cid f fc? fa? t))).sum

/-- One row of the `FilmScores` CTE. -/
structure ScoredFilm where
  film : Film
  category_score : Nat
  actor_score : Nat
  language_score : Nat
  rating_score : Nat
deriving DecidableEq

def scoreFilm (db : Db) (cid : Nat) (w : Weights) (f : Film) : ScoredFilm :=
  ⟨f, w.category * dimSum db cid f .category,
    w.actor * dimSum db cid f .actor,
    w.language * dimSum db cid f .language,
    w.rating * dimSum db cid f .rating⟩

/-- The `FilmScores` CTE: one group per catalog film whose id survives
`WHERE f.film_id NOT IN (<notInListV2>)`. -/
def filmScores (db : Db) (cid : Nat) (w : Weights) : List ScoredFilm :=
  (db.films.filter (fun f =>
    !(decide (f.film_id ∈ notInListV2 db cid)))).map (scoreFilm db cid w)

def totalScore (s : ScoredFilm) : Nat :=
  s.category_score + s.actor_score + s.language_score + s.rating_score

/-- The `CASE ... END AS explanation` expression of the outer V2 SELECT. -/
def explanationFor (s : ScoredFilm) : String :=
  if 0 < s.category_score ∧ 0 < s.actor_score then
    "Based on your interest in similar genres and actors."
  else if 0 < s.category_score then
    "Based on your interest in similar genres."
  else if 0 < s.actor_score then
    "Based on your interest in similar actors."
  else if 0 < s.language_score then
    "Based on your interest in similar languages."
  else if 0 < s.rating_score then
    "Based on your interest in similar film ratings."
  else
    "Recommended based on general relevance."

/-- One row of the outer V2 SELECT.  The `genres` / `actors` array aggregates
and the two `customer_rentals_by_*_count` explanation-support columns are
display metadata consulted by no claim and are omitted from the projection. -/
structure RecRow where
  film_id : Nat
  title : String
  description : String
  release_year : Nat
  score : Nat
  explanation : String
deriving DecidableEq

def toRecRow (s : ScoredFilm) : RecRow :=
  ⟨s.film.film_id, s.film.title, s.film.description, s.film.release_year,
    totalScore s, explanationFor s⟩

/-- The outer V2 SELECT before `LIMIT`: project each `FilmScores` group and
`ORDER BY score DESC`. -/
def rankedRecRows (db : Db) (cid : Nat) (w : Weights) : List RecRow :=
  sortDesc (fun r => r.score) ((filmScores db cid w).map toRecRow)

/-- Embeds `RecommendationsV2Service.getRecommendations(customerId, focus?)`:
customer existence check, weight adjustment, exclusion list, scoring query,
`ORDER BY score DESC LIMIT 10`. -/
def getRecommendationsV2 (db : Db) (cid : Nat) (focus : Option String) :
    Except HttpError (List RecRow) :=
  match findCustomer db cid with
  | none => .error (.notFound s!"Customer with ID {cid} not found")
  | some _ =>
    .ok ((rankedRecRows db cid (adjustWeights focus baseWeights)).take 10)

/-! ## Closed forms of the V2 partial scores

These lemmas compute what the `FilmScores` aggregates actually evaluate to:
because the three `LEFT JOIN`s multiply rows, each partial score carries the
row multiplicities of the other junction tables. -/

theorem leftOpt_nil {α : Type} : leftOpt ([] : List α) = [none] := rfl

theorem leftOpt_cons {α : Type} (a : α) (l : List α) :
    leftOpt (a :: l) = (a :: l).map some := rfl

theorem leftOpt_length {α : Type} (l : List α) :
    (leftOpt l).length = max 1 l.length := by
  cases l with
  | nil => rfl
  | cons a l =>
    rw [leftOpt_cons, List.length_map, List.length_cons]
    omega

theorem sum_leftOpt_elim {α : Type} (l : List α) (g : α → Nat) :
    ((leftOpt l).map (fun x? => x?.elim 0 g)).sum = (l.map g).sum := by
  cases l with
  | nil => rfl
  | cons a l =>
    rw [leftOpt_cons, List.map_map]
    rfl

theorem sum_leftOpt_const {α : Type} (l : List α) (c : Nat) :
    ((leftOpt l).map (fun _ => c)).sum = (max 1 l.length) * c := by
  rw [sum_map_constNat, leftOpt_length]

theorem filterTypeSum_append (l₁ l₂ : List PrefRow) (t : PrefType) :
    filterTypeSum (l₁ ++ l₂) t = filterTypeSum l₁ t + filterTypeSum l₂ t := by
  unfold filterTypeSum
  rw [List.filter_append, List.map_append, List.sum_append]

theorem filterTypeSum_mk_ne (l : List (Nat × Nat)) (m : PrefRow → Bool)
    (t1 t : PrefType) (h : t1 ≠ t) :
    filterTypeSum ((l.map (fun p => PrefRow.mk p.1 t1 p.2)).filter m) t = 0 := by
  unfold filterTypeSum
  rw [List.filter_eq_nil_iff.mpr, List.map_nil, List.sum_nil]
  intro r hr
  rcases List.mem_map.mp (List.mem_filter.mp hr).1 with ⟨p, _, rfl⟩
  simpa using h

theorem filterTypeSum_mk_eq (l : List (Nat × Nat)) (m : PrefRow → Bool)
    (t : PrefType) :
    filterTypeSum ((l.map (fun p => PrefRow.mk p.1 t p.2)).filter m) t
      = ((l.filter (fun p => m (PrefRow.mk p.1 t p.2))).map
          (fun p => p.2)).sum := by
  unfold filterTypeSum
  rw [List.filter_map, List.filter_eq_self.mpr, List.map_map]
  · rfl
  · intro r hr
    rcases List.mem_map.mp hr with ⟨p, _, rfl⟩
    simp

theorem cellSum_parts (db : Db) (cid : Nat) (f : Film)
    (fc? : Option FilmCategory) (fa? : Option FilmActor) (t : PrefType) :
    cellSum db cid f fc? fa? t
      = filterTypeSum ((catPrefRows db cid).filter (cpMatch f fc? fa?)) t
        + filterTypeSum ((actPrefRows db cid).filter (cpMatch f fc? fa?)) t
        + filterTypeSum ((langPrefRows db cid).filter (cpMatch f fc? fa?)) t
        + filterTypeSum ((ratPrefRows db cid).filter (cpMatch f fc? fa?)) t := by
  unfold cellSum cpRows
  rw [List.filter_append, List.filter_append, List.filter_append,
    filterTypeSum_append, filterTypeSum_append, filterTypeSum_append]

theorem cellSum_category (db : Db) (cid : Nat) (f : Film)
    (fc? : Option FilmCategory) (fa? : Option FilmActor) :
    cellSum db cid f fc? fa? .category
      = fc?.elim 0 (fun fc => countOcc fc.category_id (userCatIds db cid)) := by
  rw [cellSum_parts]
  unfold actPrefRows langPrefRows ratPrefRows
  rw [filterTypeSum_mk_ne _ _ _ _ (by decide),
    filterTypeSum_mk_ne _ _ _ _ (by decide),
    filterTypeSum_mk_ne _ _ _ _ (by decide)]
  unfold catPrefRows
  rw [filterTypeSum_mk_eq]
  cases fc? with
  | none =>
    simp [cpMatch, Option.any]
  | some fc =>
    simpa [cpMatch, Option.any] using
      groupCounts_filter_sum fc.category_id (userCatIds db cid)

theorem cellSum_actor (db : Db) (cid : Nat) (f : Film)
    (fc? : Option FilmCategory) (fa? : Option FilmActor) :
    cellSum db cid f fc? fa? .actor
      = fa?.elim 0 (fun fa => countOcc fa.actor_id (userActIds db cid)) := by
  rw [cellSum_parts]
  unfold catPrefRows langPrefRows ratPrefRows
  rw [filterTypeSum_mk_ne _ _ _ _ (by decide),
    filterTypeSum_mk_ne _ _ _ _ (by decide),
    filterTypeSum_mk_ne _ _ _ _ (by decide)]
  unfold actPrefRows
  rw [filterTypeSum_mk_eq]
  cases fa? with
  | none =>
    simp [cpMatch, Option.any]
  | some fa =>
    simpa [cpMatch, Option.any] using
      groupCounts_filter_sum fa.actor_id (userActIds db cid)

theorem cellSum_language (db : Db) (cid : Nat) (f : Film)
    (fc? : Option FilmCategory) (fa? : Option FilmActor) :
    cellSum db cid f fc? fa? .language
      = countOcc f.language_id (userLangIds db cid) := by
  rw [cellSum_parts]
  unfold catPrefRows actPrefRows ratPrefRows
  rw [filterTypeSum_mk_ne _ _ _ _ (by decide),
    filterTypeSum_mk_ne _ _ _ _ (by decide),
    filterTypeSum_mk_ne _ _ _ _ (by decide)]
  unfold langPrefRows
  rw [filterTypeSum_mk_eq]
  simpa [cpMatch] using
    groupCounts_filter_sum f.language_id (userLangIds db cid)

theorem cellSum_rating (db : Db) (cid : Nat) (f : Film)
    (fc? : Option FilmCategory) (fa? : Option FilmActor) :
    cellSum db cid f fc? fa? .rating
      = countOcc (ratingCaseRank f.rating) (userRatingRanks db cid) := by
  rw [cellSum_parts]
  unfold catPrefRows actPrefRows langPrefRows
  rw [filterTypeSum_mk_ne _ _ _ _ (by decide),
    filterTypeSum_mk_ne _ _ _ _ (by decide),
    filterTypeSum_mk_ne _ _ _ _ (by decide)]
  unfold ratPrefRows
  rw [filterTypeSum_mk_eq]
  simpa [cpMatch] using
    groupCounts_filter_sum (ratingCaseRank f.rating) (userRatingRanks db cid)

theorem dimSum_category (db : Db) (cid : Nat) (f : Film) :
    dimSum db cid f .category
      = max 1 (filmActs db f).length
        * ((filmCats db f).map
            (fun fc => countOcc fc.category_id (userCatIds db cid))).sum := by
  unfold dimSum
  rw [sum_flatMapNat]
  have hcell : ∀ fc? fa?, cellSum db cid f fc? fa? .category
      = fc?.elim 0 (fun fc => countOcc fc.category_id (userCatIds db cid)) :=
    fun fc? fa? => cellSum_category db cid f fc? fa?
  calc ((leftOpt (filmCats db f)).map (fun fc? =>
          ((leftOpt (filmActs db f)).map
            (fun fa? => cellSum db cid f fc? fa? .category)).sum)).sum
      = ((leftOpt (filmCats db f)).map (fun fc? =>
          max 1 (filmActs db f).length * fc?.elim 0
            (fun fc => countOcc fc.category_id (userCatIds db cid)))).sum := by
        congr 1
        refine List.map_congr_left ?_
        intro fc? _
        simp only [hcell]
        exact sum_leftOpt_const _ _
    _ = max 1 (filmActs db f).length
        * ((leftOpt (filmCats db f)).map (fun fc? => fc?.elim 0
            (fun fc => countOcc fc.category_id (userCatIds db cid)))).sum := by
        rw [List.sum_map_mul_left]
    _ = _ := by rw [sum_leftOpt_elim]

theorem dimSum_actor (db : Db) (cid : Nat) (f : Film) :
    dimSum db cid f .actor
      = max 1 (filmCats db f).length
        * ((filmActs db f).map
            (fun fa => countOcc fa.actor_id (userActIds db cid))).sum := by
  unfold dimSum
  rw [sum_flatMapNat]
  have hrow : ∀ fc? : Option FilmCategory,
      ((leftOpt (filmActs db f)).map
        (fun fa? => cellSum db cid f fc? fa? .actor)).sum
      = ((filmActs db f).map
          (fun fa => countOcc fa.actor_id (userActIds db cid))).sum := by
    intro fc?
    have : ∀ fa?, cellSum db cid f fc? fa? .actor
        = fa?.elim 0 (fun fa => countOcc fa.actor_id (userActIds db cid)) :=
      fun fa? => cellSum_actor db cid f fc? fa?
    simp only [this]
    exact sum_leftOpt_elim _ _
  calc ((leftOpt (filmCats db f)).map (fun fc? =>
          ((leftOpt (filmActs db f)).map
            (fun fa? => cellSum db cid f fc? fa? .actor)).sum)).sum
      = ((leftOpt (filmCats db f)).map (fun _ =>
          ((filmActs db f).map
            (fun fa => countOcc fa.actor_id (userActIds db cid))).sum)).sum := by
        congr 1
        exact List.map_congr_left (fun fc? _ => hrow fc?)
    _ = _ := by rw [sum_map_constNat, leftOpt_length]

theorem dimSum_language (db : Db) (cid : Nat) (f : Film) :
    dimSum db cid f .language
      = max 1 (filmCats db f).length * (max 1 (filmActs db f).length
        * countOcc f.language_id (userLangIds db cid)) := by
  unfold dimSum
  rw [sum_flatMapNat]
  have hrow : ∀ fc? : Option FilmCategory,
      ((leftOpt (filmActs db f)).map
        (fun fa? => cellSum db cid f fc? fa? .language)).sum
      = max 1 (filmActs db f).length
        * countOcc f.language_id (userLangIds db cid) := by
    intro fc?
    simp only [cellSum_language]
    exact sum_leftOpt_const _ _
  calc ((leftOpt (filmCats db f)).map (fun fc? =>
          ((leftOpt (filmActs db f)).map
            (fun fa? => cellSum db cid f fc? fa? .language)).sum)).sum
      = ((leftOpt (filmCats db f)).map (fun _ =>
          max 1 (filmActs db f).length
            * countOcc f.language_id (userLangIds db cid))).sum := by
        congr 1
        exact List.map_congr_left (fun fc? _ => hrow fc?)
    _ = _ := by rw [sum_map_constNat, leftOpt_length]

theorem dimSum_rating (db : Db) (cid : Nat) (f : Film) :
    dimSum db cid f .rating
      = max 1 (filmCats db f).length * (max 1 (filmActs db f).length
        * countOcc (ratingCaseRank f.rating) (userRatingRanks db cid)) := by
  unfold dimSum
  rw [sum_flatMapNat]
  have hrow : ∀ fc? : Option FilmCategory,
      ((leftOpt (filmActs db f)).map
        (fun fa? => cellSum db cid f fc? fa? .rating)).sum
      = max 1 (filmActs db f).length
        * countOcc (ratingCaseRank f.rating) (userRatingRanks db cid) := by
    intro fc?
    simp only [cellSum_rating]
    exact sum_leftOpt_const _ _
  calc ((leftOpt (filmCats db f)).map (fun fc? =>
          ((leftOpt (filmActs db f)).map
            (fun fa? => cellSum db cid f fc? fa? .rating)).sum)).sum
      = ((leftOpt (filmCats db f)).map (fun _ =>
          max 1 (filmActs db f).length
            * countOcc (ratingCaseRank f.rating) (userRatingRanks db cid))).sum := by
        congr 1
        exact List.map_congr_left (fun fc? _ => hrow fc?)
    _ = _ := by rw [sum_map_constNat, leftOpt_length]

/-! ## Strategy V1 (`customers.service.ts`) -/

/-- Rows of `getTopCategories`: `rental r JOIN inventory i JOIN film_category fc
ON i.film_id = fc.film_id JOIN category c`, projected to `c.name` (this query
joins the junction table directly on the inventory's film id). -/
def userCatNamesV1 (db : Db) (cid : Nat) : List String :=
  (db.rentals.filter (fun r => r.customer_id == cid)).flatMap (fun r =>
    (db.inventories.filter (fun i => i.inventory_id == r.inventory_id)).flatMap
      (fun i =>
        (db.film_categories.filter (fun fc => fc.film_id == i.film_id)).flatMap
          (fun fc =>
            (db.categories.filter
              (fun c => c.category_id == fc.category_id)).map
                (fun c => c.name))))

/-- Rows of `getTopActors`: the analogous join through `film_actor JOIN actor`,
grouped by the actor row (`GROUP BY a.actor_id, a.first_name, a.last_name`). -/
def userActorsV1 (db : Db) (cid : Nat) : List Actor :=
  (db.rentals.filter (fun r => r.customer_id == cid)).flatMap (fun r =>
    (db.inventories.filter (fun i => i.inventory_id == r.inventory_id)).flatMap
      (fun i =>
        (db.film_actors.filter (fun fa => fa.film_id == i.film_id)).flatMap
          (fun fa =>
            (db.actors.filter (fun a => a.actor_id == fa.actor_id)))))

/-- Rows of `getTopLanguages`: joins through `film` and `language`, grouped by
`TRIM(l.name)`. -/
def userLangNamesV1 (db : Db) (cid : Nat) : List String :=
  (rentalFilms db cid).flatMap (fun f =>
    (db.languages.filter (fun l => l.language_id == f.language_id)).map
      (fun l => l.name.trim))

/-- Rows of `getTopRatings`: joins through `film`, keeps non-NULL ratings,
grouped by `f.rating`. -/
def userRatingsV1 (db : Db) (cid : Nat) : List MpaaRating :=
  (rentalFilms db cid).filterMap (fun f => f.rating)

def getTopCategories (db : Db) (cid : Nat) : List (String × Nat) :=
  topK 5 (userCatNamesV1 db cid)

def getTopActors (db : Db) (cid : Nat) : List (Actor × Nat) :=
  topK 5 (userActorsV1 db cid)

def getTopLanguages (db : Db) (cid : Nat) : List (String × Nat) :=
  topK 3 (userLangNamesV1 db cid)

def getTopRatings (db : Db) (cid : Nat) : List (MpaaRating × Nat) :=
  topK 3 (userRatingsV1 db cid)

/-- The Postgres text of a rating enum value (`f.rating::text`). -/
def ratingText : MpaaRating → String
  | .g => "G"
  | .pg => "PG"
  | .pg13 => "PG-13"
  | .r => "R"
  | .nc17 => "NC-17"

/-- Embeds `baseFilmQuery`: `SELECT DISTINCT <film columns> FROM film f <join>
WHERE <filter> AND f.film_id NOT IN (<interacted subquery>) LIMIT 10`.
The rows are represented by the underlying film record; the `genres`/`actors`
aggregates and the two cross-count columns are display metadata consulted by
no claim.  The attribute joins are folded into the filter predicate, which
also performs the `SELECT DISTINCT` collapse of join duplicates. -/
def candidateFilmsV1 (db : Db) (cid : Nat) (pred : Film → Bool) : List Film :=
  (db.films.filter (fun f =>
    pred f && !(decide (f.film_id ∈ interactedFilmIds db cid)))).take 10

/-- Number of rental rows of a film through any of its inventory copies
(`COUNT(r.rental_id)` of the `getMostPopularFilms` join). -/
def filmRentalCount (db : Db) (f : Film) : Nat :=
  ((db.inventories.filter (fun i => i.film_id == f.film_id)).flatMap (fun i =>
    db.rentals.filter (fun r => r.inventory_id == i.inventory_id))).length

/-- Embeds `getMostPopularFilms`: films joined to their rentals (inner join,
so only films with at least one rental appear), excluding the customer's own
films, `ORDER BY popularity_score DESC LIMIT 10`. -/
def getMostPopularFilms (db : Db) (cid : Nat) : List (Film × Nat) :=
  (sortDesc (fun p => p.2)
    ((db.films.filter (fun f =>
      decide (0 < filmRentalCount db f)
        && !(decide (f.film_id ∈ interactedFilmIds db cid)))).map
          (fun f => (f, filmRentalCount db f)))).take 10

/-- Result of the V1 service: either the no-history `{ message }` object or a
`{ customer_id, recommendations, explanation }` object. -/
inductive V1Response where
  | message (msg : String)
  | result (customer_id : Nat) (recommendations : List Film)
      (explanation : String)
deriving DecidableEq

def v1Films : V1Response → List Film
  | .message _ => []
  | .result _ recs _ => recs

def noHistoryMsg (cid : Nat) : String :=
  s!"No recommendations available for customer {cid}. No rental history found."

def directorsUnsupportedMsg : String :=
  "Director-based recommendations are not directly supported by the current Sakila database schema. To enable this, the schema would need to include director information for films."

/-- The `focus === 'actors'` branch of the V1 service. -/
def v1ActorsBranch (db : Db) (cid : Nat) : V1Response :=
  let top := getTopActors db cid
  if top.isEmpty then .message (noHistoryMsg cid)
  else
    let actorIds := top.map (fun p => p.1.actor_id)
    .result cid
      (candidateFilmsV1 db cid (fun f =>
        (db.film_actors.filter (fun fa => fa.film_id == f.film_id)).any
          (fun fa => decide (fa.actor_id ∈ actorIds))))
      ("Based on your top rented actors: " ++ String.intercalate ", "
        (top.map (fun p => p.1.first_name ++ " " ++ p.1.last_name)))

/-- The `focus === 'languages'` branch of the V1 service. -/
def v1LanguagesBranch (db : Db) (cid : Nat) : V1Response :=
  let top := getTopLanguages db cid
  if top.isEmpty then .message (noHistoryMsg cid)
  else
    let names := top.map (fun p => p.1)
    .result cid
      (candidateFilmsV1 db cid (fun f =>
        (db.languages.filter (fun l => l.language_id == f.language_id)).any
          (fun l => decide (l.name.trim ∈ names))))
      ("Based on your top rented languages: "
        ++ String.intercalate ", " names)

/-- The `focus === 'ratings'` branch of the V1 service (`f.rating::text IN`
over a NULL rating is not satisfiable, hence the `none => false` arm). -/
def v1RatingsBranch (db : Db) (cid : Nat) : V1Response :=
  let top := getTopRatings db cid
  if top.isEmpty then .message (noHistoryMsg cid)
  else
    let vals := top.map (fun p => p.1)
    .result cid
      (candidateFilmsV1 db cid (fun f =>
        match f.rating with
        | some rt => decide (rt ∈ vals)
        | none => false))
      ("Based on your top rented ratings: "
        ++ String.intercalate ", " (vals.map ratingText))

/-- The `focus === 'popularity'` branch of the V1 service. -/
def v1PopularityBranch (db : Db) (cid : Nat) : V1Response :=
  let films := getMostPopularFilms db cid
  if films.isEmpty then
    .message s!"No popular recommendations available for customer {cid}."
  else
    .result cid (films.map (fun p => p.1))
      "Based on overall popularity (most rented films, excluding your rentals)."

/-- The default (category) branch of the V1 service. -/
def v1CategoriesBranch (db : Db) (cid : Nat) : V1Response :=
  let top := getTopCategories db cid
  if top.isEmpty then .message (noHistoryMsg cid)
  else
    let names := top.map (fun p => p.1)
    .result cid
      (candidateFilmsV1 db cid (fun f =>
        (db.film_categories.filter
          (fun fc => fc.film_id == f.film_id)).any (fun fc =>
            (db.categories.filter
              (fun c => c.category_id == fc.category_id)).any
                (fun c => decide (c.name ∈ names)))))
      ("Based on your top rented categories: "
        ++ String.intercalate ", " names)

/-- Embeds `CustomersService.getRecommendationsBasedOnClientRentalCategories`.
The branches compare the `focus` string exactly as the `if/else if` chain
does; every unmatched value (including an absent focus) falls through to the
category branch. -/
def getRecommendationsV1 (db : Db) (cid : Nat) (focus : Option String) :
    Except HttpError V1Response :=
  match findCustomer db cid with
  | none => .error (.notFound s!"Customer with ID {cid} not found")
  | some _ =>
    if focus = some "actors" then .ok (v1ActorsBranch db cid)
    else if focus = some "languages" then .ok (v1LanguagesBranch db cid)
    else if focus = some "ratings" then .ok (v1RatingsBranch db cid)
    else if focus = some "directors" then
      .ok (.result cid [] directorsUnsupportedMsg)
    else if focus = some "popularity" then .ok (v1PopularityBranch db cid)
    else .ok (v1CategoriesBranch db cid)

/-- Embeds `getRecommendationFocusOptions` of `customers.service.ts`. -/
def recommendationFocusOptions : List String :=
  ["categories", "actors", "languages", "ratings", "directors", "popularity"]

/-! ## Validation pipes and controller routes -/

/-- Embeds `value.toLowerCase()` (character-wise ASCII/Unicode lowering). -/
def strToLower (s : String) : String :=
  String.mk (s.data.map Char.toLower)

/-- Embeds the V1 `FocusValidationPipe`: an absent or empty focus passes
through unchanged (the guard is `if (value && !valid.includes(value))`), any
other value must be in the V1 option list. -/
def focusValidationPipe (value : Option String) :
    Except HttpError (Option String) :=
  match value with
  | none => .ok none
  | some v =>
    if decide (v ≠ "") && !(decide (v ∈ recommendationFocusOptions)) then
      .error (.badRequest ("Invalid focus option. Valid options are: "
        ++ String.intercalate ", " recommendationFocusOptions))
    else
      .ok (some v)

/-- The `allowedFocusOptions` array of `focus-validation-v2.pipe.ts`, exactly
as written there. -/
def allowedFocusOptionsV2 : List String :=
  ["categories", "actors", "languages", "ratings", "directors", "popularity"]

/-- The `defaultFocusOption` of `focus-validation-v2.pipe.ts`. -/
def defaultFocusOptionV2 : String := "actors"

/-- Embeds `FocusValidationV2Pipe.transform`: absent/empty values are replaced
by the default, other values are lowercased and checked against
`allowedFocusOptionsV2`. -/
def focusValidationV2Pipe (value : Option String) : Except HttpError String :=
  match value with
  | none => .ok defaultFocusOptionV2
  | some v =>
    if v = "" then .ok defaultFocusOptionV2
    else
      let focus := strToLower v
      if decide (focus ∈ allowedFocusOptionsV2) then .ok focus
      else
        .error (.badRequest ("Invalid focus option: " ++ v
          ++ ". Allowed options are: "
          ++ String.intercalate ", " allowedFocusOptionsV2))

/-- Route `GET /recomendations/:id/recommendations-v1`: the V1 pipe validates
the query value, then the customers service runs. -/
def v1Endpoint (db : Db) (cid : Nat) (focus : Option String) :
    Except HttpError V1Response :=
  (focusValidationPipe focus).bind (fun f => getRecommendationsV1 db cid f)

/-- Route `GET /recomendations/:id/recommendations-v2`: the V2 pipe always
produces a string (default `actors` when absent), which is handed to the V2
service. -/
def v2Endpoint (db : Db) (cid : Nat) (focus : Option String) :
    Except HttpError (List RecRow) :=
  (focusValidationV2Pipe focus).bind
    (fun f => getRecommendationsV2 db cid (some f))

/-! ## External similarity calls (`ml.service.ts` and
`external-recommendations.service.ts`) -/

/-- Static configuration of one outgoing HTTP call: the timeout passed to the
client (if any) and the number of retries configured. -/
structure HttpCallConfig where
  timeoutMs : Option Nat
  retries : Nat
deriving DecidableEq

/-- `MlService.getRecommendations` calls axios with `timeout: 10000` and no
retry logic. -/
def mlServiceCallConfig : HttpCallConfig := ⟨some 10000, 0⟩

/-- `ExternalRecommendationsService.getRecommendationsFromExternalApi` calls
`httpService.get` with neither a `timeout` nor a `retry` operator applied. -/
def externalApiCallConfig : HttpCallConfig := ⟨none, 0⟩

/-- Shape of a failed axios call as inspected by `MlService.handleHttpError`:
either an object carrying an optional `code` and an optional
`response.status`, or a non-object error value. -/
inductive MlFailure where
  | axios (code : Option String) (responseStatus : Option Nat)
  | nonObject
deriving DecidableEq

/-- Embeds `MlService.handleHttpError`.  Note the JavaScript guard
`if (status && typeof status === 'number')`: a status of `0` is falsy and
falls through to the generic branch. -/
def handleHttpError (e : MlFailure) (cid : Nat) : HttpError :=
  match e with
  | .axios code status =>
    if code = some "ECONNREFUSED" ∨ code = some "ENOTFOUND" then
      .http "ML recommendation service is currently unavailable" 503
    else
      match status with
      | some st =>
        if st = 404 then
          .notFound s!"No recommendations found for customer {cid}"
        else if st ≠ 0 then
          .http "ML service error" st
        else
          .http "Failed to get ML recommendations" 500
      | none => .http "Failed to get ML recommendations" 500
  | .nonObject => .http "Failed to get ML recommendations" 500

/-- Outcome of the single HTTP attempt made by `MlService` (the payload is the
remote JSON, kept opaque). -/
inductive MlOutcome where
  | success (payload : String)
  | failure (err : MlFailure)
deriving DecidableEq

/-- Embeds `MlService.getRecommendations`: local customer existence check
(`NotFoundException` when absent), then one axios call whose failure is
translated by `handleHttpError`. -/
def mlGetRecommendations (db : Db) (cid : Nat) (outcome : MlOutcome) :
    Except HttpError String :=
  match findCustomer db cid with
  | none => .error (.notFound s!"Customer with ID {cid} not found")
  | some _ =>
    match outcome with
    | .success d => .ok d
    | .failure e => .error (handleHttpError e cid)

/-- Outcome of the single HTTP attempt made by
`ExternalRecommendationsService` (on failure only `error.message` is ever
inspected). -/
inductive ExtOutcome where
  | success (payload : String)
  | failure (message : String)
deriving DecidableEq

/-- Embeds `ExternalRecommendationsService.getRecommendationsFromExternalApi`:
the customer id and focus only parameterize the outgoing request (no local
database check is performed), and every failure is rethrown as a plain
`Error` with a generic message. -/
def getRecommendationsFromExternalApi (db : Db) (cid : Nat)
    (focus : Option String) (outcome : ExtOutcome) : Except HttpError String :=
  match outcome with
  | .success d => .ok d
  | .failure m =>
    .error (.jsError ("Failed to get recommendations from external API: "
      ++ m))

/-! ## Supporting lemmas for the claims -/

instance {ε α : Type} [DecidableEq ε] [DecidableEq α] :
    DecidableEq (Except ε α) := fun x y =>
  match x, y with
  | .ok a, .ok b => decidable_of_iff (a = b) (by simp)
  | .ok _, .error _ => .isFalse (by simp)
  | .error _, .ok _ => .isFalse (by simp)
  | .error e, .error e2 => decidable_of_iff (e = e2) (by simp)

theorem mem_candidateFilmsV1 {db : Db} {cid : Nat} {pred : Film → Bool}
    {f : Film} (h : f ∈ candidateFilmsV1 db cid pred) :
    f.film_id ∉ interactedFilmIds db cid := by
  unfold candidateFilmsV1 at h
  have h2 := (List.mem_filter.mp (List.mem_of_mem_take h)).2
  rcases Bool.and_eq_true .. |>.mp h2 with ⟨-, hnot⟩
  rw [Bool.not_eq_true'] at hnot
  exact of_decide_eq_false hnot

theorem mem_getMostPopularFilms {db : Db} {cid : Nat} {p : Film × Nat}
    (h : p ∈ getMostPopularFilms db cid) :
    p.1.film_id ∉ interactedFilmIds db cid := by
  unfold getMostPopularFilms at h
  have h1 := (mem_sortDesc _ _ _).mp (List.mem_of_mem_take h)
  rcases List.mem_map.mp h1 with ⟨f, hf, rfl⟩
  have h2 := (List.mem_filter.mp hf).2
  rcases Bool.and_eq_true .. |>.mp h2 with ⟨-, hnot⟩
  rw [Bool.not_eq_true'] at hnot
  exact of_decide_eq_false hnot

theorem flatMap_toList_eq_filterMap {α β : Type} (l : List α)
    (g : α → Option β) :
    l.flatMap (fun a => (g a).toList) = l.filterMap g := by
  induction l with
  | nil => rfl
  | cons a l ih =>
    rw [List.flatMap_cons, List.filterMap_cons, ih]
    cases g a <;> simp

theorem filter_eq_find_of_nodup_ids (l : List Inventory)
    (h : (l.map (fun i => i.inventory_id)).Nodup) (n : Nat) :
    l.filter (fun i => i.inventory_id == n)
      = (l.find? (fun i => i.inventory_id == n)).toList := by
  induction l with
  | nil => rfl
  | cons i is ih =>
    rw [List.map_cons, List.nodup_cons] at h
    cases hpred : (i.inventory_id == n) with
    | true =>
      have hi : i.inventory_id = n := by simpa using hpred
      have hnil : List.filter (fun i => i.inventory_id == n) is = [] := by
        rw [List.filter_eq_nil_iff]
        intro j hj hjn
        have hjid : j.inventory_id = n := by simpa using hjn
        exact h.1 (List.mem_map.mpr ⟨j, hj, by rw [hjid, hi]⟩)
      rw [@List.filter_cons_of_pos _ (fun i => i.inventory_id == n) i is hpred,
        @List.find?_cons_of_pos _ (fun i => i.inventory_id == n) i is hpred,
        Option.toList_some, hnil]
    | false =>
      have hneg : ¬ ((i.inventory_id == n) = true) := by rw [hpred]; simp
      rw [@List.filter_cons_of_neg _ (fun i => i.inventory_id == n) i is hneg,
        @List.find?_cons_of_neg _ (fun i => i.inventory_id == n) i is hneg]
      exact ih h.2

theorem rentedPrisma_eq_interacted (db : Db) (cid : Nat)
    (h : (db.inventories.map (fun i => i.inventory_id)).Nodup) :
    rentedFilmIdsPrisma db cid = interactedFilmIds db cid := by
  unfold rentedFilmIdsPrisma interactedFilmIds
  rw [← flatMap_toList_eq_filterMap]
  congr 1
  funext r
  rw [filter_eq_find_of_nodup_ids db.inventories h r.inventory_id]
  cases db.inventories.find? (fun i => i.inventory_id == r.inventory_id) <;>
    rfl

theorem mem_rankedRecRows {db : Db} {cid : Nat} {w : Weights} {row : RecRow}
    (h : row ∈ rankedRecRows db cid w) :
    ∃ f ∈ db.films, decide (f.film_id ∈ notInListV2 db cid) = false
      ∧ row = toRecRow (scoreFilm db cid w f) := by
  unfold rankedRecRows filmScores at h
  have h1 := (mem_sortDesc _ _ _).mp h
  rcases List.mem_map.mp h1 with ⟨s, hs, rfl⟩
  rcases List.mem_map.mp hs with ⟨f, hf, rfl⟩
  rcases List.mem_filter.mp hf with ⟨hmem, hbool⟩
  rw [Bool.not_eq_true'] at hbool
  exact ⟨f, hmem, hbool, rfl⟩

theorem not_interacted_of_not_in_notInListV2 (db : Db) (cid : Nat) (x : Nat)
    (hnodup : (db.inventories.map (fun i => i.inventory_id)).Nodup)
    (hx : decide (x ∈ notInListV2 db cid) = false) :
    x ∉ interactedFilmIds db cid := by
  intro hmem
  rw [← rentedPrisma_eq_interacted db cid hnodup] at hmem
  have hne : (rentedFilmIdsPrisma db cid).isEmpty = false := by
    cases hl : rentedFilmIdsPrisma db cid with
    | nil => rw [hl] at hmem; cases hmem
    | cons a l => rfl
  have heq : notInListV2 db cid = rentedFilmIdsPrisma db cid := by
    unfold notInListV2
    rw [hne]
    rfl
  rw [heq] at hx
  exact of_decide_eq_false hx hmem

theorem v1Films_actorsBranch (db : Db) (cid : Nat) :
    ∀ f ∈ v1Films (v1ActorsBranch db cid),
      f.film_id ∉ interactedFilmIds db cid := by
  intro f hf
  simp only [v1ActorsBranch] at hf
  by_cases htop : (getTopActors db cid).isEmpty
  · rw [if_pos htop] at hf
    simp [v1Films] at hf
  · rw [if_neg htop] at hf
    exact mem_candidateFilmsV1 hf

theorem v1Films_languagesBranch (db : Db) (cid : Nat) :
    ∀ f ∈ v1Films (v1LanguagesBranch db cid),
      f.film_id ∉ interactedFilmIds db cid := by
  intro f hf
  simp only [v1LanguagesBranch] at hf
  by_cases htop : (getTopLanguages db cid).isEmpty
  · rw [if_pos htop] at hf
    simp [v1Films] at hf
  · rw [if_neg htop] at hf
    exact mem_candidateFilmsV1 hf

theorem v1Films_ratingsBranch (db : Db) (cid : Nat) :
    ∀ f ∈ v1Films (v1RatingsBranch db cid),
      f.film_id ∉ interactedFilmIds db cid := by
  intro f hf
  simp only [v1RatingsBranch] at hf
  by_cases htop : (getTopRatings db cid).isEmpty
  · rw [if_pos htop] at hf
    simp [v1Films] at hf
  · rw [if_neg htop] at hf
    exact mem_candidateFilmsV1 hf

theorem v1Films_categoriesBranch (db : Db) (cid : Nat) :
    ∀ f ∈ v1Films (v1CategoriesBranch db cid),
      f.film_id ∉ interactedFilmIds db cid := by
  intro f hf
  simp only [v1CategoriesBranch] at hf
  by_cases htop : (getTopCategories db cid).isEmpty
  · rw [if_pos htop] at hf
    simp [v1Films] at hf
  · rw [if_neg htop] at hf
    exact mem_candidateFilmsV1 hf

theorem v1Films_popularityBranch (db : Db) (cid : Nat) :
    ∀ f ∈ v1Films (v1PopularityBranch db cid),
      f.film_id ∉ interactedFilmIds db cid := by
  intro f hf
  simp only [v1PopularityBranch] at hf
  by_cases htop : (getMostPopularFilms db cid).isEmpty
  · rw [if_pos htop] at hf
    simp [v1Films] at hf
  · rw [if_neg htop] at hf
    simp only [v1Films] at hf
    rcases List.mem_map.mp hf with ⟨p, hp, rfl⟩
    exact mem_getMostPopularFilms hp

theorem rentalFilms_of_no_rentals {db : Db} {cid : Nat}
    (hr : db.rentals.filter (fun r => r.customer_id == cid) = []) :
    rentalFilms db cid = [] := by
  unfold rentalFilms
  rw [hr]
  rfl

theorem dimSum_of_no_rentals {db : Db} {cid : Nat}
    (hr : db.rentals.filter (fun r => r.customer_id == cid) = [])
    (f : Film) (t : PrefType) : dimSum db cid f t = 0 := by
  have hrf := rentalFilms_of_no_rentals hr
  have hcat : userCatIds db cid = [] := by
    unfold userCatIds
    rw [hrf]
    rfl
  have hact : userActIds db cid = [] := by
    unfold userActIds
    rw [hrf]
    rfl
  have hlang : userLangIds db cid = [] := by
    unfold userLangIds
    rw [hrf]
    rfl
  have hrat : userRatingRanks db cid = [] := by
    unfold userRatingRanks
    rw [hrf]
    rfl
  cases t with
  | category =>
    rw [dimSum_category, hcat]
    rw [List.sum_eq_zero, Nat.mul_zero]
    intro x hx
    rcases List.mem_map.mp hx with ⟨fc, _, rfl⟩
    rfl
  | actor =>
    rw [dimSum_actor, hact]
    rw [List.sum_eq_zero, Nat.mul_zero]
    intro x hx
    rcases List.mem_map.mp hx with ⟨fa, _, rfl⟩
    rfl
  | language =>
    rw [dimSum_language, hlang]
    rfl
  | rating =>
    rw [dimSum_rating, hrat]
    rfl

theorem scoreFilm_of_no_rentals {db : Db} {cid : Nat}
    (hr : db.rentals.filter (fun r => r.customer_id == cid) = [])
    (w : Weights) (f : Film) : scoreFilm db cid w f = ⟨f, 0, 0, 0, 0⟩ := by
  unfold scoreFilm
  rw [dimSum_of_no_rentals hr, dimSum_of_no_rentals hr,
    dimSum_of_no_rentals hr, dimSum_of_no_rentals hr]
  simp

/-! ## Specification-mirror definition for the V2 category score

This definition follows the WORDS of the specification (§4.3 step 4:
`category_score = weight_category × (sum of the user's historical interaction
count for each category shared with this item)`), for comparison with the
embedded SQL (`scoreFilm`). -/

def specCategoryScore (db : Db) (cid : Nat) (w : Weights) (f : Film) : Nat :=
  w.category * ((filmCats db f).map
    (fun fc => countOcc fc.category_id (userCatIds db cid))).sum

/-- Recognizer for a local not-found failure. -/
def isNotFoundError {α : Type} : Except HttpError α → Bool
  | .error (.notFound _) => true
  | _ => false

/-! ## Concrete database fixtures -/

/-- Film already rented by customer 1 (category 1, actor 1, language 1, G). -/
def fMain10 : Film := ⟨10, "RENTED FILM", "d1", 2006, some .g, 1⟩

/-- Candidate film with one category and two actors (category 1, actors 1 and
2, language 1, G). -/
def fMain20 : Film := ⟨20, "CANDIDATE A", "d2", 2006, some .g, 1⟩

/-- Candidate film with no category and no actor rows. -/
def fMain30 : Film := ⟨30, "CANDIDATE B", "d3", 2006, some .pg, 1⟩

def dbMain : Db :=
  { customers := [⟨1⟩]
    films := [fMain10, fMain20, fMain30]
    categories := [⟨1, "Action"⟩]
    actors := [⟨1, "PENELOPE", "GUINESS"⟩, ⟨2, "NICK", "WAHLBERG"⟩]
    languages := [⟨1, "English"⟩]
    film_categories := [⟨10, 1⟩, ⟨20, 1⟩]
    film_actors := [⟨10, 1⟩, ⟨20, 1⟩, ⟨20, 2⟩]
    inventories := [⟨100, 10⟩, ⟨200, 20⟩, ⟨300, 30⟩]
    rentals := [⟨1000, 100, 1⟩] }

/-- Fixture with an existing customer (id 7) that has zero rentals; the
catalog contains a film with id 0 to exercise the `[0]` placeholder of the V2
exclusion list. -/
def dbNoHist : Db :=
  { customers := [⟨7⟩]
    films := [⟨0, "ZERO", "z", 2005, some .g, 1⟩,
      ⟨1, "ONE", "o", 2006, some .pg, 1⟩,
      ⟨2, "TWO", "t", 2007, none, 1⟩]
    categories := [⟨1, "Action"⟩]
    actors := [⟨1, "PENELOPE", "GUINESS"⟩]
    languages := [⟨1, "English"⟩]
    film_categories := [⟨1, 1⟩]
    film_actors := [⟨1, 1⟩]
    inventories := [⟨500, 1⟩]
    rentals := [] }

/-- The concrete V2 output on `dbMain` for customer 1 without a focus. -/
def v2RowsMain : List RecRow :=
  match getRecommendationsV2 dbMain 1 none with
  | .ok rows => rows
  | .error _ => []

/-- The concrete V1 output on `dbMain` for customer 1 without a focus. -/
def v1RespMain : V1Response :=
  match getRecommendationsV1 dbMain 1 none with
  | .ok resp => resp
  | .error _ => .message ""

/-! ## Claim theorems -/

/-- C1: contrary to the claim, the facade-level V2 focus validation
(`FocusValidationV2Pipe`) does NOT accept exactly the set
`{actors, genres, language, rating}`: its `allowedFocusOptions` array is the
V1 vocabulary, so `genres`, `language` and `rating` are rejected with a
bad-request error while `categories`, `languages`, `ratings`, `directors` and
`popularity` are let through (and are then silently ignored by the scoring
layer).  Only the default (`actors` when absent) part of the claim holds.
This theorem evaluates the pipe at the failing inputs. -/
theorem c1_focus_validation_v2_pipe_eval :
    focusValidationV2Pipe (some "genres")
      = .error (.badRequest "Invalid focus option: genres. Allowed options are: categories, actors, languages, ratings, directors, popularity")
    ∧ focusValidationV2Pipe (some "language")
      = .error (.badRequest "Invalid focus option: language. Allowed options are: categories, actors, languages, ratings, directors, popularity")
    ∧ focusValidationV2Pipe (some "rating")
      = .error (.badRequest "Invalid focus option: rating. Allowed options are: categories, actors, languages, ratings, directors, popularity")
    ∧ focusValidationV2Pipe none = .ok "actors"
    ∧ focusValidationV2Pipe (some "categories") = .ok "categories"
    ∧ focusValidationV2Pipe (some "popularity") = .ok "popularity"
    ∧ allowedFocusOptionsV2 = recommendationFocusOptions := by
  refine ⟨?_, ?_, ?_, ?_, ?_, ?_, ?_⟩ <;> decide

/-- C6: the V2 weight vector starts at `{category 4, actor 3, language 2,
rating 1}`; each recognized focus token (`genres`, `actors`, `language`,
`rating`) raises exactly its own dimension by 2; any other focus value
reaching the scoring layer leaves the base vector unchanged without raising
an error; the weights never drop below the base values (so they are always
non-negative). -/
theorem c6_weight_vector :
    adjustWeights none baseWeights = ⟨4, 3, 2, 1⟩
    ∧ adjustWeights (some "genres") baseWeights = ⟨6, 3, 2, 1⟩
    ∧ adjustWeights (some "actors") baseWeights = ⟨4, 5, 2, 1⟩
    ∧ adjustWeights (some "language") baseWeights = ⟨4, 3, 4, 1⟩
    ∧ adjustWeights (some "rating") baseWeights = ⟨4, 3, 2, 3⟩
    ∧ (∀ s : String, s ∉ (["genres", "actors", "language", "rating"] : List String)
        → adjustWeights (some s) baseWeights = baseWeights)
    ∧ (∀ focus : Option String,
        4 ≤ (adjustWeights focus baseWeights).category
        ∧ 3 ≤ (adjustWeights focus baseWeights).actor
        ∧ 2 ≤ (adjustWeights focus baseWeights).language
        ∧ 1 ≤ (adjustWeights focus baseWeights).rating) := by
  refine ⟨rfl, rfl, rfl, rfl, rfl, ?_, ?_⟩
  · intro s hs
    simp only [adjustWeights]
    split_ifs with h1 h2 h3 h4
    · exact absurd (by simp [h1]) hs
    · exact absurd (by simp [h2]) hs
    · exact absurd (by simp [h3]) hs
    · exact absurd (by simp [h4]) hs
    · rfl
  · intro focus
    cases focus with
    | none => exact ⟨le_refl _, le_refl _, le_refl _, le_refl _⟩
    | some s =>
      simp only [adjustWeights]
      split_ifs <;> simp [baseWeights]

/-- Witness for C6: the unrecognized focus value `invalid` leaves the weights
at the base vector. -/
theorem c6_weight_vector_witness :
    ("invalid" ∉ (["genres", "actors", "language", "rating"] : List String))
    ∧ adjustWeights (some "invalid") baseWeights = baseWeights :=
  ⟨by decide, c6_weight_vector.2.2.2.2.2.1 "invalid" (by decide)⟩

/-- C8: for every user that exists, V1 with focus `directors` returns the
well-formed result with an empty recommendation list and the fixed
schema-limitation message, independent of the user's rental history (the
theorem quantifies over the whole database). -/
theorem c8_directors_empty (db : Db) (cid : Nat)
    (h : (findCustomer db cid).isSome = true) :
    getRecommendationsV1 db cid (some "directors")
      = .ok (.result cid [] directorsUnsupportedMsg) := by
  unfold getRecommendationsV1
  rcases Option.isSome_iff_exists.mp h with ⟨c, hc⟩
  rw [hc]
  rfl

/-- Witness for C8: evaluated on the concrete fixture. -/
theorem c8_directors_empty_witness :
    (findCustomer dbMain 1).isSome = true
    ∧ getRecommendationsV1 dbMain 1 (some "directors")
        = .ok (.result 1 [] directorsUnsupportedMsg) :=
  ⟨rfl, c8_directors_empty dbMain 1 rfl⟩

/-- C10: for every user, calling the V1 route with no focus produces exactly
the same result as calling it with focus `categories`: the V1 pipe passes
both values through and the service's default branch handles both
identically. -/
theorem c10_default_equals_categories (db : Db) (cid : Nat) :
    v1Endpoint db cid none = v1Endpoint db cid (some "categories") := by
  show getRecommendationsV1 db cid none
    = getRecommendationsV1 db cid (some "categories")
  unfold getRecommendationsV1
  cases hc : findCustomer db cid <;> rfl

/-- C4 counterexample: the external-recommendations route
(`ExternalRecommendationsService.getRecommendationsFromExternalApi`, the
strategy dispatched by `GET .../recommendations-external`) performs no local
customer check at all: with the unknown user id 99999 it simply forwards the
upstream payload (here it succeeds), and an upstream failure is folded into a
generic error, never a local NotFound. -/
theorem c4_external_counterexample :
    findCustomer dbMain 99999 = none
    ∧ getRecommendationsFromExternalApi dbMain 99999 (some "actors")
        (.success "[]") = .ok "[]"
    ∧ getRecommendationsFromExternalApi dbMain 99999 (some "actors")
        (.failure "Request failed with status code 404")
      = .error (.jsError "Failed to get recommendations from external API: Request failed with status code 404") :=
  ⟨rfl, rfl, rfl⟩

/-- C4 (amended): a request naming a user identity with no matching customer
record fails with a NotFound error on V1, on V2 and on the ML similarity
route (`MlService`), whatever the upstream outcome; the external-
recommendations route performs no local existence check and never produces a
local NotFound — it forwards the outcome, translating failures into a generic
error. -/
theorem c4_unknown_user_not_found (db : Db) (cid : Nat) (focus : Option String)
    (mlo : MlOutcome) (exo : ExtOutcome) (h : findCustomer db cid = none) :
    getRecommendationsV1 db cid focus
      = .error (.notFound s!"Customer with ID {cid} not found")
    ∧ getRecommendationsV2 db cid focus
      = .error (.notFound s!"Customer with ID {cid} not found")
    ∧ mlGetRecommendations db cid mlo
      = .error (.notFound s!"Customer with ID {cid} not found")
    ∧ isNotFoundError (getRecommendationsFromExternalApi db cid focus exo)
      = false := by
  refine ⟨?_, ?_, ?_, ?_⟩
  · unfold getRecommendationsV1
    rw [h]
  · unfold getRecommendationsV2
    rw [h]
  · unfold mlGetRecommendations
    rw [h]
  · cases exo <;> rfl

/-- Witness for C4 (amended), at the concrete fixture and user id 99999. -/
theorem c4_unknown_user_not_found_witness :
    findCustomer dbMain 99999 = none
    ∧ getRecommendationsV1 dbMain 99999 none
        = .error (.notFound "Customer with ID 99999 not found")
    ∧ getRecommendationsV2 dbMain 99999 none
        = .error (.notFound "Customer with ID 99999 not found")
    ∧ mlGetRecommendations dbMain 99999 (.success "[]")
        = .error (.notFound "Customer with ID 99999 not found")
    ∧ isNotFoundError (getRecommendationsFromExternalApi dbMain 99999 none
        (.failure "boom")) = false := by
  have h := c4_unknown_user_not_found dbMain 99999 none (.success "[]")
    (.failure "boom") rfl
  exact ⟨rfl, h.1, h.2.1, h.2.2.1, h.2.2.2⟩

/-- C5 counterexample: the secondary external call path
(`ExternalRecommendationsService`) contradicts the claim: its request
configuration sets no timeout at all, and a remote 404 failure is not turned
into a not-found error but into the one generic failure message. -/
theorem c5_external_no_timeout_counterexample :
    externalApiCallConfig.timeoutMs = none
    ∧ getRecommendationsFromExternalApi dbMain 1 none
        (.failure "Request failed with status code 404")
      = .error (.jsError "Failed to get recommendations from external API: Request failed with status code 404")
    ∧ isNotFoundError (getRecommendationsFromExternalApi dbMain 1 none
        (.failure "Request failed with status code 404")) = false :=
  ⟨rfl, rfl, rfl⟩

/-- C5 (amended): the `MlService` call to the external similarity service is
made with a 10-second timeout and exactly one attempt (no retry), and its
failure modes are translated into distinct local error categories exactly as
the claim lists them (connection refused / DNS failure becomes 503 service
unavailable, a remote 404 becomes a local NotFound, any other nonzero remote
status is propagated, anything else becomes a generic 500); the secondary
external-recommendations call path also makes a single attempt but sets no
timeout and folds every failure into one generic error. -/
theorem c5_ml_error_translation :
    mlServiceCallConfig = ⟨some 10000, 0⟩
    ∧ externalApiCallConfig = ⟨none, 0⟩
    ∧ (∀ (cid : Nat) (st : Option Nat),
        handleHttpError (.axios (some "ECONNREFUSED") st) cid
          = .http "ML recommendation service is currently unavailable" 503)
    ∧ (∀ (cid : Nat) (st : Option Nat),
        handleHttpError (.axios (some "ENOTFOUND") st) cid
          = .http "ML recommendation service is currently unavailable" 503)
    ∧ (∀ (cid : Nat) (code : Option String),
        code ≠ some "ECONNREFUSED" → code ≠ some "ENOTFOUND" →
        handleHttpError (.axios code (some 404)) cid
          = .notFound s!"No recommendations found for customer {cid}")
    ∧ (∀ (cid : Nat) (code : Option String) (st : Nat),
        code ≠ some "ECONNREFUSED" → code ≠ some "ENOTFOUND" →
        st ≠ 404 → st ≠ 0 →
        handleHttpError (.axios code (some st)) cid
          = .http "ML service error" st)
    ∧ (∀ (cid : Nat) (code : Option String),
        code ≠ some "ECONNREFUSED" → code ≠ some "ENOTFOUND" →
        handleHttpError (.axios code none) cid
          = .http "Failed to get ML recommendations" 500)
    ∧ (∀ cid : Nat, handleHttpError .nonObject cid
        = .http "Failed to get ML recommendations" 500)
    ∧ (∀ (db : Db) (cid : Nat) (focus : Option String) (m : String),
        getRecommendationsFromExternalApi db cid focus (.failure m)
          = .error (.jsError
              ("Failed to get recommendations from external API: " ++ m))) := by
  refine ⟨rfl, rfl, ?_, ?_, ?_, ?_, ?_, fun _ => rfl, fun _ _ _ _ => rfl⟩
  · intro cid st
    simp [handleHttpError]
  · intro cid st
    simp [handleHttpError]
  · intro cid code h1 h2
    simp [handleHttpError, h1, h2]
  · intro cid code st h1 h2 h404 h0
    simp [handleHttpError, h1, h2, h404, h0]
  · intro cid code h1 h2
    simp [handleHttpError, h1, h2]

/-- Witness for C5 (amended): the translation applied at concrete failures. -/
theorem c5_ml_error_translation_witness :
    handleHttpError (.axios (some "EHOSTUNREACH") (some 404)) 5
      = .notFound "No recommendations found for customer 5"
    ∧ handleHttpError (.axios none (some 502)) 5 = .http "ML service error" 502
    ∧ handleHttpError (.axios (some "ECONNREFUSED") none) 5
      = .http "ML recommendation service is currently unavailable" 503 :=
  ⟨c5_ml_error_translation.2.2.2.2.1 5 (some "EHOSTUNREACH")
      (by decide) (by decide),
    c5_ml_error_translation.2.2.2.2.2.1 5 none 502 (by decide) (by decide)
      (by decide) (by decide),
    c5_ml_error_translation.2.2.1 5 none⟩

/-- C7: for every user and every focus, the list returned by V2 has at most
10 entries and is sorted by total score in descending order (each adjacent
pair satisfies `score[i] >= score[i+1]`). -/
theorem c7_v2_sorted_top10 (db : Db) (cid : Nat) (focus : Option String)
    (rows : List RecRow) (h : getRecommendationsV2 db cid focus = .ok rows) :
    rows.length ≤ 10
    ∧ List.Chain' (fun a b => b.score ≤ a.score) rows := by
  unfold getRecommendationsV2 at h
  cases hc : findCustomer db cid with
  | none =>
    rw [hc] at h
    simp at h
  | some c =>
    rw [hc] at h
    have hrows : rows
        = (rankedRecRows db cid (adjustWeights focus baseWeights)).take 10 := by
      cases h
      rfl
    subst hrows
    constructor
    · rw [List.length_take]
      exact min_le_left _ _
    · have hpair := pairwise_sortDesc (fun r => r.score)
        ((filmScores db cid (adjustWeights focus baseWeights)).map toRecRow)
      exact (hpair.sublist (List.take_sublist _ _)).chain'

/-- Witness for C7: the concrete V2 output on the fixture. -/
theorem c7_v2_sorted_top10_witness :
    getRecommendationsV2 dbMain 1 none = .ok v2RowsMain
    ∧ (v2RowsMain.length ≤ 10
        ∧ List.Chain' (fun a b => b.score ≤ a.score) v2RowsMain) :=
  ⟨rfl, c7_v2_sorted_top10 dbMain 1 none v2RowsMain rfl⟩

/-- C2 counterexample: the partial scores computed by the V2 SQL are NOT
`weight × (sum of the user's counts over shared attribute values)`.  On the
fixture, customer 1 rented one film of category 1, and the candidate film
`fMain20` shares that category; the spec formula gives a category score of
`4 × 1 = 4`, but the query's `LEFT JOIN` to the two-actor junction doubles
the category rows, producing 8. -/
theorem c2_partial_score_counterexample :
    (scoreFilm dbMain 1 baseWeights fMain20).category_score = 8
    ∧ specCategoryScore dbMain 1 baseWeights fMain20 = 4
    ∧ (scoreFilm dbMain 1 baseWeights fMain20).category_score
        ≠ specCategoryScore dbMain 1 baseWeights fMain20 := by
  refine ⟨?_, ?_, ?_⟩ <;> decide

/-- C2 (amended): for every catalog item not in the exclusion list, the V2
partial scores equal the spec's `weight × (sum of shared counts)` formula
multiplied by the `LEFT JOIN` row multiplicities of the other junction
table(s): the category score carries a factor `max 1 (#actors of the item)`,
the actor score a factor `max 1 (#categories)`, and the language and rating
scores both factors — so the four partial scores are not independent of one
another.  The total score is still the sum of the four partial scores, and
every non-excluded item (a zero score included) enters the ranked list. -/
theorem c2_v2_partial_scores_closed_form (db : Db) (cid : Nat) (w : Weights)
    (f : Film) :
    (scoreFilm db cid w f).category_score
      = w.category * (max 1 (filmActs db f).length
        * ((filmCats db f).map
            (fun fc => countOcc fc.category_id (userCatIds db cid))).sum)
    ∧ (scoreFilm db cid w f).actor_score
      = w.actor * (max 1 (filmCats db f).length
        * ((filmActs db f).map
            (fun fa => countOcc fa.actor_id (userActIds db cid))).sum)
    ∧ (scoreFilm db cid w f).language_score
      = w.language * (max 1 (filmCats db f).length
        * (max 1 (filmActs db f).length
          * countOcc f.language_id (userLangIds db cid)))
    ∧ (scoreFilm db cid w f).rating_score
      = w.rating * (max 1 (filmCats db f).length
        * (max 1 (filmActs db f).length
          * countOcc (ratingCaseRank f.rating) (userRatingRanks db cid)))
    ∧ (toRecRow (scoreFilm db cid w f)).score
      = (scoreFilm db cid w f).category_score
        + (scoreFilm db cid w f).actor_score
        + (scoreFilm db cid w f).language_score
        + (scoreFilm db cid w f).rating_score
    ∧ (f ∈ db.films → f.film_id ∉ notInListV2 db cid →
        toRecRow (scoreFilm db cid w f) ∈ rankedRecRows db cid w) := by
  refine ⟨?_, ?_, ?_, ?_, rfl, ?_⟩
  · show w.category * dimSum db cid f .category = _
    rw [dimSum_category]
  · show w.actor * dimSum db cid f .actor = _
    rw [dimSum_actor]
  · show w.language * dimSum db cid f .language = _
    rw [dimSum_language]
  · show w.rating * dimSum db cid f .rating = _
    rw [dimSum_rating]
  · intro hmem hnot
    unfold rankedRecRows filmScores
    refine (mem_sortDesc _ _ _).mpr ?_
    refine List.mem_map.mpr ⟨scoreFilm db cid w f, ?_, rfl⟩
    refine List.mem_map.mpr ⟨f, ?_, rfl⟩
    refine List.mem_filter.mpr ⟨hmem, ?_⟩
    rw [Bool.not_eq_true']
    exact decide_eq_false hnot

/-- Witness for C2 (amended): the candidate film of the fixture is a member
of the ranked list. -/
theorem c2_v2_partial_scores_closed_form_witness :
    fMain20 ∈ dbMain.films
    ∧ fMain20.film_id ∉ notInListV2 dbMain 1
    ∧ toRecRow (scoreFilm dbMain 1 baseWeights fMain20)
        ∈ rankedRecRows dbMain 1 baseWeights :=
  ⟨by decide, by decide,
    (c2_v2_partial_scores_closed_form dbMain 1 baseWeights fMain20).2.2.2.2.2
      (by decide) (by decide)⟩

/-- C3: for every user and focus, the items returned by strategy V1 (every
branch, popularity included) never intersect the user's interacted-item set;
the same holds for strategy V2 given the inventory primary key (no duplicate
inventory ids), under which the Prisma relation lookup used by V2 computes
exactly the interacted set. -/
theorem c3_exclusion_invariant (db : Db) (cid : Nat) (focus : Option String) :
    (∀ resp, getRecommendationsV1 db cid focus = .ok resp →
      ∀ f ∈ v1Films resp, f.film_id ∉ interactedFilmIds db cid)
    ∧ ((db.inventories.map (fun i => i.inventory_id)).Nodup →
      ∀ rows, getRecommendationsV2 db cid focus = .ok rows →
        ∀ row ∈ rows, row.film_id ∉ interactedFilmIds db cid) := by
  constructor
  · intro resp h
    unfold getRecommendationsV1 at h
    cases hc : findCustomer db cid with
    | none =>
      rw [hc] at h
      simp at h
    | some c =>
      rw [hc] at h
      split_ifs at h with h1 h2 h3 h4 h5
      · injection h with h'
        subst h'
        exact v1Films_actorsBranch db cid
      · injection h with h'
        subst h'
        exact v1Films_languagesBranch db cid
      · injection h with h'
        subst h'
        exact v1Films_ratingsBranch db cid
      · injection h with h'
        subst h'
        intro f hf
        simp [v1Films] at hf
      · injection h with h'
        subst h'
        exact v1Films_popularityBranch db cid
      · injection h with h'
        subst h'
        exact v1Films_categoriesBranch db cid
  · intro hnodup rows h row hrow
    unfold getRecommendationsV2 at h
    cases hc : findCustomer db cid with
    | none =>
      rw [hc] at h
      simp at h
    | some c =>
      rw [hc] at h
      injection h with h'
      subst h'
      rcases mem_rankedRecRows (List.mem_of_mem_take hrow) with ⟨f, -, hdec, rfl⟩
      exact not_interacted_of_not_in_notInListV2 db cid f.film_id hnodup hdec

/-- Witness for C3: both conjuncts applied to the fixture's concrete V1 and
V2 outputs. -/
theorem c3_exclusion_invariant_witness :
    (dbMain.inventories.map (fun i => i.inventory_id)).Nodup
    ∧ getRecommendationsV1 dbMain 1 none = .ok v1RespMain
    ∧ (∀ f ∈ v1Films v1RespMain, f.film_id ∉ interactedFilmIds dbMain 1)
    ∧ getRecommendationsV2 dbMain 1 none = .ok v2RowsMain
    ∧ (∀ row ∈ v2RowsMain, row.film_id ∉ interactedFilmIds dbMain 1) :=
  ⟨by decide, rfl, (c3_exclusion_invariant dbMain 1 none).1 v1RespMain rfl,
    rfl, (c3_exclusion_invariant dbMain 1 none).2 (by decide) v2RowsMain rfl⟩

/-- C9: for a user that exists but has zero rentals, V2 returns neither a
sentinel nor an error: the exclusion list degenerates to the placeholder
`[0]`, and the service returns the first `min 10 (#catalog films with id ≠
0)` catalog films, each with total score 0 and the generic fallback
explanation. -/
theorem c9_v2_no_history (db : Db) (cid : Nat) (focus : Option String)
    (hc : (findCustomer db cid).isSome = true)
    (hr : db.rentals.filter (fun r => r.customer_id == cid) = []) :
    notInListV2 db cid = [0]
    ∧ ∃ rows, getRecommendationsV2 db cid focus = .ok rows
        ∧ rows.length
            = min 10 ((db.films.filter (fun f => decide (f.film_id ≠ 0))).length)
        ∧ ∀ row ∈ rows, row.score = 0
            ∧ row.explanation = "Recommended based on general relevance." := by
  have hprisma : rentedFilmIdsPrisma db cid = [] := by
    unfold rentedFilmIdsPrisma
    rw [hr]
    rfl
  have hnotin : notInListV2 db cid = [0] := by
    unfold notInListV2
    rw [hprisma]
    rfl
  refine ⟨hnotin, ?_⟩
  rcases Option.isSome_iff_exists.mp hc with ⟨c, hcc⟩
  refine ⟨(rankedRecRows db cid (adjustWeights focus baseWeights)).take 10,
    ?_, ?_, ?_⟩
  · unfold getRecommendationsV2
    rw [hcc]
  · have hfilter : db.films.filter
        (fun f => !(decide (f.film_id ∈ notInListV2 db cid)))
        = db.films.filter (fun f => decide (f.film_id ≠ 0)) := by
      apply List.filter_congr
      intro f _
      rw [hnotin]
      simp
    rw [List.length_take, inf_eq_min]
    congr 1
    unfold rankedRecRows filmScores
    rw [length_sortDesc, List.length_map, List.length_map, hfilter]
  · intro row hrow
    rcases mem_rankedRecRows (List.mem_of_mem_take hrow) with ⟨f, -, -, rfl⟩
    rw [scoreFilm_of_no_rentals hr]
    exact ⟨rfl, rfl⟩

/-- Witness for C9: the fixture user 7 exists and has no rentals; film 0 is
the only exclusion, and the two remaining catalog films come back with score
0 and the fallback explanation. -/
theorem c9_v2_no_history_witness :
    (findCustomer dbNoHist 7).isSome = true
    ∧ dbNoHist.rentals.filter (fun r => r.customer_id == 7) = []
    ∧ (notInListV2 dbNoHist 7 = [0]
        ∧ ∃ rows, getRecommendationsV2 dbNoHist 7 none = .ok rows
            ∧ rows.length = min 10 ((dbNoHist.films.filter
                (fun f => decide (f.film_id ≠ 0))).length)
            ∧ ∀ row ∈ rows, row.score = 0
                ∧ row.explanation = "Recommended based on general relevance.") :=
  ⟨rfl, rfl, c9_v2_no_history dbNoHist 7 none rfl rfl⟩
